import Mathlib

/-!
Shallow embedding of `src/lib/dialects/auroraSls/connection-manager.js`: the
Aurora Serverless (RDS Data Service) connection-manager dialect. Effectful
operations are modelled by returning, alongside their value, the list of
transport `executeSql` calls they issue; the promise returned by `connect` is
modelled by the outcome its probe completion callback produces.
-/

namespace AuroraSls

/-- A raw transport error object as delivered by the SDK completion callback: a
`code` string consulted by the classifier plus an opaque message payload. -/
structure RawError where
  code : String
  message : String
deriving DecidableEq, Repr

/-- The typed errors from `SequelizeErrors`, each constructed around the
original raw error (`new SequelizeErrors.XError(err)`). -/
inductive SequelizeError where
  | connectionRefusedError (parent : RawError)
  | accessDeniedError (parent : RawError)
  | hostNotFoundError (parent : RawError)
  | hostNotReachableError (parent : RawError)
  | invalidConnectionError (parent : RawError)
  | connectionError (parent : RawError)
deriving DecidableEq, Repr

/-- The raw error wrapped inside a typed error. -/
def SequelizeError.parent : SequelizeError → RawError
  | .connectionRefusedError e => e
  | .accessDeniedError e => e
  | .hostNotFoundError e => e
  | .hostNotReachableError e => e
  | .invalidConnectionError e => e
  | .connectionError e => e

/-- The kind of a typed error, forgetting the wrapped payload. -/
inductive ErrorKind where
  | connectionRefused
  | accessDenied
  | hostNotFound
  | hostNotReachable
  | invalidConnection
  | generic
deriving DecidableEq, Repr

/-- The kind of each typed error constructor. -/
def SequelizeError.kind : SequelizeError → ErrorKind
  | .connectionRefusedError _ => .connectionRefused
  | .accessDeniedError _ => .accessDenied
  | .hostNotFoundError _ => .hostNotFound
  | .hostNotReachableError _ => .hostNotReachable
  | .invalidConnectionError _ => .invalidConnection
  | .connectionError _ => .generic

/-- The `switch (err.code)` in the probe completion callback of `connect`,
building the typed error from the raw one. -/
def classify (err : RawError) : SequelizeError :=
  match err.code with
  | "ECONNREFUSED" => .connectionRefusedError err
  | "ER_ACCESS_DENIED_ERROR" => .accessDeniedError err
  | "ENOTFOUND" => .hostNotFoundError err
  | "EHOSTUNREACH" => .hostNotReachableError err
  | "EINVAL" => .invalidConnectionError err
  | _ => .connectionError err

/-- The raw codes with a dedicated case in the switch. -/
def knownCodes : List String :=
  ["ECONNREFUSED", "ER_ACCESS_DENIED_ERROR", "ENOTFOUND", "EHOSTUNREACH", "EINVAL"]

/-- Opaque credential/config payload passed to the RDSDataService constructor. -/
structure AwsConfig where
  payload : String
deriving DecidableEq, Repr

/-- The `dialectOptions` record captured by the connection closures. -/
structure DialectOptions where
  awsConfig : AwsConfig
  awsSecretStoreArn : String
  dbClusterOrInstanceArn : String
  database : String
  schema : String
deriving DecidableEq, Repr

/-- A connection config; `port` is `none` when the JS field is unset. -/
structure Config where
  port : Option Nat
  dialectOptions : DialectOptions
deriving DecidableEq, Repr

/-- The parameter object of the single `rds.executeSql` transport operation. -/
structure ExecuteSqlParams where
  awsSecretStoreArn : String
  dbClusterOrInstanceArn : String
  sqlStatements : String
  database : String
  schema : String
deriving DecidableEq, Repr

/-- A node-style completion value `(error, result)` delivered by the transport
to the handler. -/
structure Reply where
  err : Option RawError
  result : String
deriving DecidableEq, Repr

/-- A transport client: the behaviour of `rds.executeSql` as a map from the
parameter object to the completion value it delivers to the handler. -/
abbrev Rds := ExecuteSqlParams → Reply

/-- A query request `{ sql }`. -/
structure Request where
  sql : String
deriving DecidableEq, Repr

/-- The stateless connection value `{ query, execute: query }`; its only state
is the `dialectOptions` captured by its closures. -/
structure Connection where
  dialectOptions : DialectOptions
deriving DecidableEq, Repr

/-- The parameter object the `query` closure builds for a given sql text. -/
def queryParams (dopts : DialectOptions) (sql : String) : ExecuteSqlParams :=
  { awsSecretStoreArn := dopts.awsSecretStoreArn
    dbClusterOrInstanceArn := dopts.dbClusterOrInstanceArn
    sqlStatements := sql
    database := dopts.database
    schema := dopts.schema }

/-- The `query({sql}, handler)` closure: issues the one `executeSql` call and
hands the transport's completion value to the handler unchanged. Returned here
as the issued-call trace paired with the value the handler receives. -/
def Connection.query (c : Connection) (rds : Rds) (req : Request) :
    List ExecuteSqlParams × Reply :=
  ([queryParams c.dialectOptions req.sql], rds (queryParams c.dialectOptions req.sql))

/-- The `execute` field is the very same closure (`{ query, execute: query }`). -/
def Connection.execute : Connection → Rds → Request → List ExecuteSqlParams × Reply :=
  Connection.query

/-- The probe statement issued by `connect`. -/
def probeSql : String := "SELECT VERSION() as `version`"

/-- The connection value built by `connect(config)`. -/
def connect.connection (config : Config) : Connection :=
  { dialectOptions := config.dialectOptions }

/-- The transport calls issued by `connect(config)`: the single probe query. -/
def connect.probeCalls (config : Config) (rds : Rds) : List ExecuteSqlParams :=
  ((connect.connection config).query rds { sql := probeSql }).1

/-- What a completion callback does when invoked: call `resolve` with a value,
or throw an error. -/
inductive HandlerStep where
  | callResolve (c : Connection)
  | throwErr (e : SequelizeError)
deriving DecidableEq, Repr

/-- The probe completion callback of `connect` applied to its `err` argument:
with no error it calls `resolve(connection)`; with an error it throws the typed
error built by the `switch` over `err.code`. -/
def connect.handler (config : Config) (err : Option RawError) : HandlerStep :=
  match err with
  | some e => .throwErr (classify e)
  | none => .callResolve (connect.connection config)

/-- Status of the future returned by `connect` once the probe completion
callback has run, together with any fault that escaped from it. -/
inductive ConnectOutcome where
  | resolved (c : Connection)
  | rejected (e : SequelizeError)
  | pendingWithFault (e : SequelizeError)
deriving DecidableEq, Repr

/-- Whether the future was rejected. -/
def ConnectOutcome.isRejected : ConnectOutcome → Bool
  | .rejected _ => true
  | _ => false

/-- JavaScript semantics of the completion callback firing on a later tick,
after the `new Promise(resolve => ...)` executor has already returned: calling
`resolve` settles the promise; a value thrown from the callback is no longer
intercepted by the promise constructor, so it escapes as an uncaught fault and
the promise stays pending. -/
def settleFromAsyncCallback (step : HandlerStep) : ConnectOutcome :=
  match step with
  | .callResolve c => .resolved c
  | .throwErr e => .pendingWithFault e

/-- Outcome of `connect(config)` when the transport delivers `err` to the probe
completion callback asynchronously. -/
def connect.outcome (config : Config) (err : Option RawError) : ConnectOutcome :=
  settleFromAsyncCallback (connect.handler config err)

/-- Settled state of the `Promise<void>` returned by `disconnect`. -/
inductive UnitOutcome where
  | resolvedUnit
  | rejectedUnit (e : SequelizeError)
deriving DecidableEq, Repr

/-- The method `disconnect() { return Promise.resolve(); }`: its argument is
ignored entirely; no transport call is issued. -/
def disconnect {α : Type} (_connection : α) : List ExecuteSqlParams × UnitOutcome :=
  ([], .resolvedUnit)

/-- The method `validate(connection) { return connection; }`: no transport call
is issued. -/
def validate {α : Type} (connection : α) : List ExecuteSqlParams × α :=
  ([], connection)

/-- Column/field metadata handed to `_typecast`. -/
structure FieldMeta where
  type : String
  name : String
deriving DecidableEq, Repr

/-- The value of `this.sequelize.options` passed to a registered decode
function as its context. -/
structure ContextOptions where
  timezone : String
deriving DecidableEq, Repr

/-- Decoded column values (opaque payload). -/
abbrev DecodedValue := String

/-- A registered decode function `(fieldMeta, contextOptions, fallback)`. -/
abbrev DecodeFn := FieldMeta → ContextOptions → (Unit → DecodedValue) → DecodedValue

/-- Modelled from the spec: the per-dialect parser store obtained by
`require('../parserStore')('mysql')`, whose implementation file is not under
`src/`. Per the spec, `refresh(typeId, decodeFn)` installs or overrides the
decode function for `typeId` (last write wins), `clear()` removes every
registered decode function, and `get(typeId)` returns the registered function
or absent. -/
def ParserStore : Type := String → Option DecodeFn

/-- The store with nothing registered. -/
def ParserStore.empty : ParserStore := fun _ => none

/-- Install or override the decode function for one type identifier. -/
def ParserStore.refresh (s : ParserStore) (typeId : String) (f : DecodeFn) : ParserStore :=
  fun t => if t = typeId then some f else s t

/-- Remove every registered decode function. -/
def ParserStore.clear (_s : ParserStore) : ParserStore := fun _ => none

/-- Look up the decode function registered for a type identifier. -/
def ParserStore.get (s : ParserStore) (typeId : String) : Option DecodeFn := s typeId

/-- A JavaScript runtime fault: the TypeError raised when reading a property of
`undefined`. -/
inductive JsFault where
  | typeError
deriving DecidableEq, Repr

/-- The method `static _typecast(field, next)`. `receiverOptions` is
`this.sequelize.options` when the method runs with a receiver exposing it (for
example bound to a manager instance); `none` models a receiver, such as the
bare class, on which `this.sequelize` is `undefined`, so that reading
`.options` in the registered branch faults. -/
def jsTypecast (store : ParserStore) (receiverOptions : Option ContextOptions)
    (field : FieldMeta) (next : Unit → DecodedValue) : Except JsFault DecodedValue :=
  match store.get field.type with
  | some f =>
    match receiverOptions with
    | some opts => .ok (f field opts next)
    | none => .error .typeError
  | none => .ok (next ())

/-- The assignment `sequelize.config.port = sequelize.config.port || 3306`: JS
`||` yields the right operand whenever the left is falsy, which includes both
`undefined` and the number `0`. -/
def defaultPort (port : Option Nat) : Nat :=
  match port with
  | none => 3306
  | some p => if p = 0 then 3306 else p

/-- Modelled from the spec: `refreshTypeParser(DataTypes)` of the base
lifecycle class (not under `src/`) installs the dialect's default registry
entry for each built-in type by repeated `refresh`. -/
def installEntries (entries : List (String × DecodeFn)) (s : ParserStore) : ParserStore :=
  entries.foldl (fun acc e => acc.refresh e.1 e.2) s

/-- Observable result of the constructor: the updated engine-config port, the
parser store after installing the dialect defaults, and the transport calls
issued (none). -/
structure ConstructResult where
  port : Nat
  store : ParserStore
  transportCalls : List ExecuteSqlParams

/-- The constructor: defaults the port, obtains the transport-module handle
(no network I/O), and installs the dialect's default type parsers. -/
def construct (dialectEntries : List (String × DecodeFn)) (config : Config) :
    ConstructResult :=
  { port := defaultPort config.port
    store := installEntries dialectEntries ParserStore.empty
    transportCalls := [] }

/-- Concrete fixtures used by witness theorems. -/
def errRefusedW : RawError := { code := "ECONNREFUSED", message := "refused" }

/-- A raw error whose code has no dedicated case in the switch. -/
def errOtherW : RawError := { code := "ETIMEDOUT", message := "timeout" }

/-- A concrete `dialectOptions` record. -/
def dialectOptionsW : DialectOptions :=
  { awsConfig := { payload := "aws" }
    awsSecretStoreArn := "secret1"
    dbClusterOrInstanceArn := "arn1"
    database := "db1"
    schema := "public" }

/-- A concrete config with an unset port. -/
def cfgPortNone : Config := { port := none, dialectOptions := dialectOptionsW }

/-- A concrete config whose port is set to the falsy value 0. -/
def cfgPortZero : Config := { port := some 0, dialectOptions := dialectOptionsW }

/-- A concrete config with a truthy port. -/
def cfgPortSeven : Config := { port := some 7, dialectOptions := dialectOptionsW }

/-- A concrete decode function. -/
def decodeFnW : DecodeFn := fun field opts next => field.name ++ opts.timezone ++ next ()

/-- A concrete dialect entry list. -/
def entriesW : List (String × DecodeFn) := [("DATETIME", decodeFnW)]

/-- A concrete field whose type is registered in `storeW`. -/
def fieldW : FieldMeta := { type := "DATETIME", name := "created_at" }

/-- Concrete context options. -/
def optsW : ContextOptions := { timezone := "+00:00" }

/-- A concrete fallback decoder. -/
def nextW : Unit → DecodedValue := fun _ => "raw"

/-- A store with `decodeFnW` registered for `DATETIME`. -/
def storeW : ParserStore := ParserStore.empty.refresh "DATETIME" decodeFnW

/-- Claim C2: the typed error produced by the probe's classification switch
wraps the original raw error, and its kind is determined solely by `err.code`
according to the table: ECONNREFUSED yields ConnectionRefused,
ER_ACCESS_DENIED_ERROR yields AccessDenied, ENOTFOUND yields HostNotFound,
EHOSTUNREACH yields HostNotReachable, EINVAL yields InvalidConnection, and any
other code yields the generic ConnectionError. -/
theorem classify_wraps_and_kind_by_code (err : RawError) :
    (classify err).parent = err ∧
    (err.code = "ECONNREFUSED" → (classify err).kind = .connectionRefused) ∧
    (err.code = "ER_ACCESS_DENIED_ERROR" → (classify err).kind = .accessDenied) ∧
    (err.code = "ENOTFOUND" → (classify err).kind = .hostNotFound) ∧
    (err.code = "EHOSTUNREACH" → (classify err).kind = .hostNotReachable) ∧
    (err.code = "EINVAL" → (classify err).kind = .invalidConnection) ∧
    (err.code ∉ knownCodes → (classify err).kind = .generic) := by
  obtain ⟨code, message⟩ := err
  refine ⟨?_, ?_, ?_, ?_, ?_, ?_, ?_⟩
  · simp only [classify]
    split <;> rfl
  all_goals intro h
  · simp only at h; subst h; rfl
  · simp only at h; subst h; rfl
  · simp only at h; subst h; rfl
  · simp only at h; subst h; rfl
  · simp only at h; subst h; rfl
  · simp only [knownCodes, List.mem_cons, List.not_mem_nil, or_false, not_or] at h
    simp only [classify]
    split <;> simp_all [SequelizeError.kind]

/-- Witness for C2 at concrete raw errors: a listed code and an unlisted one. -/
theorem classify_wraps_and_kind_by_code_witness :
    (classify errRefusedW).kind = .connectionRefused ∧
    (classify errOtherW).kind = .generic ∧
    (classify errOtherW).parent = errOtherW :=
  ⟨(classify_wraps_and_kind_by_code errRefusedW).2.1 rfl,
   (classify_wraps_and_kind_by_code errOtherW).2.2.2.2.2.2 (by decide),
   (classify_wraps_and_kind_by_code errOtherW).1⟩

/-- Claim C1 (code defect): when the transport delivers an error to the probe's
completion callback asynchronously, `connect` does not reject its future with
the classified typed error — the callback throws it, so it escapes as an
uncaught fault and the future never settles; shown universally, and evaluated
at the concrete failing input `code = "ECONNREFUSED"`. -/
theorem connect_error_faults_instead_of_rejecting :
    (∀ (config : Config) (e : RawError),
      connect.outcome config (some e) = .pendingWithFault (classify e) ∧
      (connect.outcome config (some e)).isRejected = false) ∧
    connect.outcome cfgPortNone (some errRefusedW) =
      .pendingWithFault (.connectionRefusedError errRefusedW) :=
  ⟨fun _ _ => ⟨rfl, rfl⟩, rfl⟩

/-- Claim C3: `execute` is the very same operation as `query`, and a query for
`{sql := s}` on the connection built by `connect` issues exactly one
`executeSql` call carrying `s` and the four fields taken unchanged from the
captured `dialectOptions`, relaying the transport's completion value unchanged
to the handler. -/
theorem query_execute_single_forwarded_call (config : Config) (rds : Rds) (s : String) :
    Connection.execute = Connection.query ∧
    (connect.connection config).query rds { sql := s } =
      ([{ awsSecretStoreArn := config.dialectOptions.awsSecretStoreArn
          dbClusterOrInstanceArn := config.dialectOptions.dbClusterOrInstanceArn
          sqlStatements := s
          database := config.dialectOptions.database
          schema := config.dialectOptions.schema }],
       rds { awsSecretStoreArn := config.dialectOptions.awsSecretStoreArn
             dbClusterOrInstanceArn := config.dialectOptions.dbClusterOrInstanceArn
             sqlStatements := s
             database := config.dialectOptions.database
             schema := config.dialectOptions.schema }) :=
  ⟨rfl, rfl⟩

/-- Claim C4: `connect` builds a stateless connection bound to
`config.dialectOptions`, issues exactly one probe request — a SELECT VERSION()
statement — through it, and when the completion callback reports no error the
future resolves with that same connection value. -/
theorem connect_probe_and_resolve (config : Config) (rds : Rds) :
    (connect.connection config).dialectOptions = config.dialectOptions ∧
    connect.probeCalls config rds =
      [queryParams config.dialectOptions "SELECT VERSION() as `version`"] ∧
    connect.outcome config none = .resolved (connect.connection config) :=
  ⟨rfl, rfl, rfl⟩

/-- Claim C5: `disconnect` returns a future that resolves immediately and
unconditionally for every input, issuing no transport call. -/
theorem disconnect_always_resolves {α : Type} (x : α) :
    disconnect x = ([], UnitOutcome.resolvedUnit) := rfl

/-- Claim C6: `validate` returns its argument unchanged and performs no
transport call; it is the identity on connections. -/
theorem validate_is_identity {α : Type} (c : α) : validate c = ([], c) := rfl

/-- Claim C7 counterexample: a config whose `port` is already set to `0` does
not keep its port — `port || 3306` treats `0` as falsy and overwrites it. -/
theorem construct_overwrites_port_zero :
    cfgPortZero.port = some 0 ∧ (construct [] cfgPortZero).port = 3306 :=
  ⟨rfl, rfl⟩

/-- Helper: installing entries preserves a binding already in the store when
every installed entry for that type carries the same function. -/
theorem installEntries_get_base (entries : List (String × DecodeFn))
    (s : ParserStore) (T : String) (f : DecodeFn) (hbase : s T = some f)
    (huniq : ∀ e ∈ entries, e.1 = T → e.2 = f) :
    installEntries entries s T = some f := by
  induction entries generalizing s with
  | nil => exact hbase
  | cons e rest ih =>
    show installEntries rest (s.refresh e.1 e.2) T = some f
    refine ih (s.refresh e.1 e.2) ?_ ?_
    · show (if T = e.1 then some e.2 else s T) = some f
      by_cases hT : T = e.1
      · rw [if_pos hT, huniq e (List.Mem.head _) hT.symm]
      · rw [if_neg hT]; exact hbase
    · intro e' he' h'
      exact huniq e' (List.Mem.tail _ he') h'

/-- Helper: after installing entries, a type listed with a unique function maps
to that function. -/
theorem installEntries_get_mem (entries : List (String × DecodeFn))
    (s : ParserStore) (T : String) (f : DecodeFn) (hmem : (T, f) ∈ entries)
    (huniq : ∀ e ∈ entries, e.1 = T → e.2 = f) :
    installEntries entries s T = some f := by
  induction entries generalizing s with
  | nil => cases hmem
  | cons e rest ih =>
    cases hmem with
    | head =>
      show installEntries rest (s.refresh T f) T = some f
      refine installEntries_get_base rest (s.refresh T f) T f ?_ ?_
      · show (if T = T then some f else s T) = some f
        rw [if_pos rfl]
      · intro e' he' h'
        exact huniq e' (List.Mem.tail _ he') h'
    | tail _ hmem' =>
      show installEntries rest (s.refresh e.1 e.2) T = some f
      refine ih (s.refresh e.1 e.2) hmem' ?_
      intro e' he' h'
      exact huniq e' (List.Mem.tail _ he') h'

/-- Claim C7 (amended): construction sets the engine-config port to 3306 when
it is unset or set to the falsy value 0, leaves any other already-set port
unchanged, installs the dialect's default type-parser entries, and issues no
transport call. -/
theorem construct_contract (entries : List (String × DecodeFn)) (config : Config) :
    ((config.port = none ∨ config.port = some 0) → (construct entries config).port = 3306) ∧
    (∀ p, config.port = some p → p ≠ 0 → (construct entries config).port = p) ∧
    (∀ T f, (T, f) ∈ entries → (∀ e ∈ entries, e.1 = T → e.2 = f) →
      ((construct entries config).store).get T = some f) ∧
    (construct entries config).transportCalls = [] := by
  refine ⟨?_, ?_, ?_, rfl⟩
  · rintro (h | h) <;> simp [construct, defaultPort, h]
  · intro p hp hp0
    simp [construct, defaultPort, hp, hp0]
  · intro T f hmem huniq
    exact installEntries_get_mem entries ParserStore.empty T f hmem huniq

/-- Witness for the amended C7 contract at concrete configs and entries. -/
theorem construct_contract_witness :
    (construct entriesW cfgPortNone).port = 3306 ∧
    (construct entriesW cfgPortSeven).port = 7 ∧
    ((construct entriesW cfgPortNone).store).get "DATETIME" = some decodeFnW ∧
    (construct entriesW cfgPortNone).transportCalls = [] :=
  ⟨(construct_contract entriesW cfgPortNone).1 (Or.inl rfl),
   (construct_contract entriesW cfgPortSeven).2.1 7 rfl (by decide),
   (construct_contract entriesW cfgPortNone).2.2.1 "DATETIME" decodeFnW
     (List.Mem.head _)
     (by
       intro e he h
       simp only [entriesW, List.mem_singleton] at he
       subst he
       rfl),
   (construct_contract entriesW cfgPortNone).2.2.2⟩

/-- Claim C8: when the store holds a decode function for `field.type`,
`_typecast` invokes it with the field, the receiver's context options and the
fallback, returning its result; when the store holds none, `_typecast` returns
the fallback's result. -/
theorem typecast_dispatch (store : ParserStore) (field : FieldMeta)
    (opts : ContextOptions) (next : Unit → DecodedValue) :
    (∀ f, store.get field.type = some f →
      jsTypecast store (some opts) field next = .ok (f field opts next)) ∧
    (store.get field.type = none →
      ∀ r, jsTypecast store r field next = .ok (next ())) := by
  constructor
  · intro f hf
    simp [jsTypecast, hf]
  · intro h r
    simp [jsTypecast, h]

/-- Witness for C8: dispatch to a registered decoder, and fallback for an
unregistered type, at concrete inputs. -/
theorem typecast_dispatch_witness :
    jsTypecast storeW (some optsW) fieldW nextW = .ok (decodeFnW fieldW optsW nextW) ∧
    jsTypecast ParserStore.empty (some optsW) fieldW nextW = .ok (nextW ()) :=
  ⟨(typecast_dispatch storeW fieldW optsW nextW).1 decodeFnW rfl,
   (typecast_dispatch ParserStore.empty fieldW optsW nextW).2 rfl (some optsW)⟩

/-- Claim C9: after `refresh(T, f)` the lookup of `T` returns `f`; after a
subsequent `clear()` the lookup of every type returns absent. -/
theorem refresh_then_clear (s : ParserStore) (T Tp : String) (f : DecodeFn) :
    (s.refresh T f).get T = some f ∧
    ((s.refresh T f).clear).get Tp = none := by
  constructor
  · show (if T = T then some f else s T) = some f
    rw [if_pos rfl]
  · rfl

/-- Claim C10: in the branch where a decode function is registered for
`field.type`, `_typecast` reads `this.sequelize.options`; with a receiver
exposing it the branch decodes, and without such a receiver it faults with a
TypeError instead of decoding. -/
theorem typecast_requires_receiver (store : ParserStore) (field : FieldMeta)
    (next : Unit → DecodedValue) (f : DecodeFn)
    (hf : store.get field.type = some f) :
    jsTypecast store none field next = .error .typeError ∧
    (∀ opts, jsTypecast store (some opts) field next = .ok (f field opts next)) := by
  constructor
  · simp [jsTypecast, hf]
  · intro opts
    simp [jsTypecast, hf]

/-- Witness for C10 at a concrete store, field and fallback. -/
theorem typecast_requires_receiver_witness :
    jsTypecast storeW none fieldW nextW = .error .typeError ∧
    jsTypecast storeW (some optsW) fieldW nextW = .ok (decodeFnW fieldW optsW nextW) := by
  obtain ⟨h1, h2⟩ := typecast_requires_receiver storeW fieldW nextW decodeFnW rfl
  exact ⟨h1, h2 optsW⟩

end AuroraSls
